import Mathlib

/-
Verification development for the real-time audio gateway
(channel multiplexer, provider transport adapters, audio codec/framer,
and session lifecycle handling).

The definitions below are shallow embeddings of the TypeScript source:
JavaScript `Map`s become association lists, `Set`s become duplicate-free
lists, `Int16Array` buffers become `List Int`, and the WebSocket send
loops become functions that return the list of performed send actions.
-/

set_option autoImplicit false

namespace SonicGateway

universe u v

/-! ## Association-list primitives modelling JavaScript `Map` and `Set` -/

/-- Lookup in an association list (JavaScript `Map.get`). -/
def getA {α : Type u} {β : Type v} [DecidableEq α] : List (α × β) → α → Option β
  | [], _ => none
  | (k, v) :: t, key => if k = key then some v else getA t key

/-- Insert-or-replace in an association list (JavaScript `Map.set`). -/
def setA {α : Type u} {β : Type v} [DecidableEq α] : List (α × β) → α → β → List (α × β)
  | [], key, val => [(key, val)]
  | (k, v) :: t, key, val =>
    if k = key then (key, val) :: t else (k, v) :: setA t key val

/-- Delete a key from an association list (JavaScript `Map.delete`):
afterwards the key is absent. -/
def delA {α : Type u} {β : Type v} [DecidableEq α] : List (α × β) → α → List (α × β)
  | [], _ => []
  | (k, v) :: t, key => if k = key then delA t key else (k, v) :: delA t key

/-- Remove an element from a duplicate-free list (JavaScript `Set.delete`). -/
def removeAll {α : Type u} [DecidableEq α] : List α → α → List α
  | [], _ => []
  | b :: t, a => if b = a then removeAll t a else b :: removeAll t a

/-! ## Clients and outbound messages -/

/-- The telephony/browser provider variants that can tag a client connection.
The server code itself keeps untagged `WebSocket` objects; the tag is carried
here so that properties about "clients of provider P" can be stated. The
embedded handlers never inspect it, exactly as the source never does. -/
inductive Provider where
  | browser
  | vonage
  | twilio
  | genesys
deriving DecidableEq

/-- A connected WebSocket client. `readyState` follows the `ws` library
constants (CONNECTING 0, OPEN 1, CLOSING 2, CLOSED 3). -/
structure Client where
  id : Nat
  readyState : Nat
  provider : Provider
deriving DecidableEq

/-- The `WebSocket.OPEN` constant of the `ws` library. -/
def wsOPEN : Nat := 1

/-- Outbound wire messages produced by the fan-out paths. -/
inductive OutMsg where
  /-- JSON envelope for a structured engine event
  (`{event: {eventName: data}}`). -/
  | jsonEvent (eventName : String) (data : String)
  /-- The `{event: "streamComplete"}` notice. -/
  | streamComplete
  /-- A raw canonical PCM chunk sent as binary (one 320-sample frame). -/
  | rawChunk (samples : List Int)
  /-- A Twilio media message carrying base64 mulaw bytes (modelled as the
  byte list the base64 string encodes). -/
  | twilioMedia (payload : List Nat) (streamSid : String)
  /-- A Genesys AudioHook audio message carrying base64 mulaw bytes. -/
  | genesysAudio (payload : List Nat) (streamId : String)
  /-- The browser integration's `{event: {audioOutput: {...}}}` envelope. -/
  | browserAudioEnvelope (data : String)
deriving DecidableEq

/-- The `clients.forEach((client) => { if (client.readyState === WebSocket.OPEN)
client.send(m); })` loop that every fan-out path in the source repeats
(server lines 537-541, 557-559, 579-581; genesys lines 120-122;
browser lines 32-34). Returns the send actions performed, in order. -/
def sendToOpen (clients : List Client) (m : OutMsg) : List (Client × OutMsg) :=
  match clients with
  | [] => []
  | c :: rest =>
    (if c.readyState = wsOPEN then [(c, m)] else []) ++ sendToOpen rest m

/-! ## Audio codec and framer -/

/-- Encode one 16-bit sample as a mulaw byte. Models `mulaw.encodeSample`
of the external `alawmulaw` package (standard mu-law companding with
bias 0x84 and clip 32635). -/
def mulawEncodeSample (s : Int) : Nat :=
  let sign : Nat := if s < 0 then 0x80 else 0
  let mag : Int := (if s < 0 then -s else s) + 132
  let m : Nat := (min mag 32635).toNat
  let exponent : Nat := Nat.log2 ((m >>> 7) &&& 0xFF)
  let mantissa : Nat := (m >>> (exponent + 3)) &&& 0x0F
  255 - (sign ||| (exponent <<< 4) ||| mantissa)

/-- Mulaw-encode a PCM sample buffer (`mulaw.encode`): elementwise. -/
def mulawEncode (pcm : List Int) : List Nat :=
  pcm.map mulawEncodeSample

/-- The decode table of the standard mu-law decoder. -/
def muDecodeTable : List Int := [0, 132, 396, 924, 1980, 4092, 8316, 16764]

/-- Decode one mulaw byte back to a 16-bit sample. Models
`mulaw.decodeSample` of the external `alawmulaw` package. -/
def mulawDecodeSample (b : Nat) : Int :=
  let mu : Nat := 255 - (b &&& 0xFF)
  let sign : Nat := mu &&& 0x80
  let exponent : Nat := (mu >>> 4) &&& 0x07
  let mantissa : Nat := mu &&& 0x0F
  let sample : Int := muDecodeTable.getD exponent 0 + Int.ofNat (mantissa <<< (exponent + 3))
  if sign = 0 then sample else -sample

/-- Mulaw-decode a byte buffer (`mulaw.decode`): elementwise. -/
def mulawDecode (bytes : List Nat) : List Int :=
  bytes.map mulawDecodeSample

/-- The 2:1 decimator of `GenesysIntegration.resample16kHzTo8kHz`
(telephony/genesys lines 128-135): output length `ceil(n / 2)`,
`result[i] = pcmSamples[i * 2]`. -/
def resample16kHzTo8kHz (pcmSamples : List Int) : List Int :=
  (List.range ((pcmSamples.length + 1) / 2)).map (fun i => pcmSamples.getD (2 * i) 0)

/-- The fixed-size reframing loop
`while (offset + SAMPLES_PER_CHUNK <= samples.length) { chunk = samples.slice(offset, offset + SAMPLES_PER_CHUNK); ...; offset += SAMPLES_PER_CHUNK }`:
the i-th full chunk is `samples.slice(n*i, n*i+n)`, and there are
`floor(length / n)` of them. -/
def chunksOf {α : Type u} (n : Nat) (samples : List α) : List (List α) :=
  (List.range (samples.length / n)).map (fun i => (samples.drop (n * i)).take n)

/-- `CHUNK_SIZE_BYTES / 2` from the audioOutput handlers: 320 samples. -/
def SAMPLES_PER_CHUNK : Nat := 320

/-! ## Outbound fan-out paths (main server `setUpEventHandlersForChannel`) -/

/-- Structured-event broadcast (server lines 530-542): wrap the event in a
JSON envelope and send it to every open client of the channel. -/
def broadcastConversationEvent (clients : List Client) (eventName data : String) :
    List (Client × OutMsg) :=
  sendToOpen clients (OutMsg.jsonEvent eventName data)

/-- The `streamComplete` broadcast (server lines 552-560). -/
def broadcastStreamComplete (clients : List Client) : List (Client × OutMsg) :=
  sendToOpen clients OutMsg.streamComplete

/-- The inner chunk loop of the audioOutput handler (server lines 575-583):
for each full 320-sample chunk, send it to every open client. -/
def broadcastFrames (clients : List Client) (frames : List (List Int)) :
    List (Client × OutMsg) :=
  match frames with
  | [] => []
  | f :: rest => sendToOpen clients (OutMsg.rawChunk f) ++ broadcastFrames clients rest

/-- The payload the Genesys outbound path builds for one call
(telephony/genesys lines 107-109): decimate 2:1, then mulaw-encode. -/
def genesysEncodeOutboundPayload (pcmSamples : List Int) : List Nat :=
  mulawEncode (resample16kHzTo8kHz pcmSamples)

/-- The PCM the Genesys inbound audio handler hands to `streamAudio`
(telephony/genesys lines 59-64): mulaw-decode the payload, with no
upsampling. -/
def genesysDecodeAudioPayload (payload : List Nat) : List Int :=
  mulawDecode payload

/-- `GenesysIntegration.tryProcessAudioOutput` (telephony/genesys lines
99-126): one wire message per invocation carrying the whole (resampled,
mulaw-encoded) sample buffer, sent to every open client. -/
def genesysTryProcessAudioOutput (isOn : Bool) (pcmSamples : List Int)
    (clients : List Client) (streamId : String) : List (Client × OutMsg) :=
  if isOn then
    sendToOpen clients (OutMsg.genesysAudio (genesysEncodeOutboundPayload pcmSamples) streamId)
  else []

/-- `BrowserIntegration.tryProcessAudioOutput` (telephony/browser lines
26-35): wrap the audioOutput event data in a JSON envelope and send it to
every open client. -/
def browserTryProcessAudioOutput (isOn : Bool) (data : String)
    (clients : List Client) : List (Client × OutMsg) :=
  if isOn then sendToOpen clients (OutMsg.browserAudioEnvelope data) else []

/-- `TwilioIntegration.tryProcessAudioOutput` (tools/get-nbo second
document, lines 163-190): if the integration is enabled, decimate the WHOLE
sample buffer it was handed 2:1 (the class's own `resample16kHzTo8kHz`,
lines 192-199, identical to the Genesys one), mulaw-encode it, wrap it in
ONE Twilio media message, and send that single message to every open
client. There is no per-frame chunking on this path. -/
def twilioTryProcessAudioOutput (isOn : Bool) (pcmSamples : List Int)
    (clients : List Client) (streamSid : String) : List (Client × OutMsg) :=
  if isOn then
    sendToOpen clients
      (OutMsg.twilioMedia (mulawEncode (resample16kHzTo8kHz pcmSamples)) streamSid)
  else []

/-- Result of one `audioOutput` engine event on the main server:
the send actions performed, plus how many times each integration's
processing path was invoked. -/
structure AudioOutputResult where
  sends : List (Client × OutMsg)
  twilioCalls : Nat
  browserCalls : Nat
deriving DecidableEq

/-- The main server's `audioOutput` handler (server lines 562-588): chunk
the event's PCM into 320-sample frames and send each to every open client;
then, if the Twilio integration is enabled, invoke its processing path once
with the whole sample buffer; likewise for the browser integration. -/
def mainAudioOutputHandler (twilioOn browserOn : Bool) (clients : List Client)
    (streamSid data : String) (pcmSamples : List Int) : AudioOutputResult :=
  let chunkSends := broadcastFrames clients (chunksOf SAMPLES_PER_CHUNK pcmSamples)
  let twilioSends :=
    if twilioOn then twilioTryProcessAudioOutput twilioOn pcmSamples clients streamSid else []
  let browserSends := browserTryProcessAudioOutput browserOn data clients
  { sends := chunkSends ++ twilioSends ++ browserSends
    twilioCalls := if twilioOn then 1 else 0
    browserCalls := if browserOn then 1 else 0 }

/-- Projection used to state Twilio delivery properties: the payloads of the
Twilio media messages sent to a given client, in order. -/
def twilioMediaPayloadsTo (c : Client) (sends : List (Client × OutMsg)) : List (List Nat) :=
  sends.foldr
    (fun p acc =>
      match p with
      | (c', OutMsg.twilioMedia pl _) => if c' = c then pl :: acc else acc
      | _ => acc)
    []

/-! ## The legacy server's audioOutput framer (server lines 110-163) -/

/-- Output of one legacy `audioOutput` event: the full frames sent and the
value held by the local `audioBuffer` variable when the callback returns. -/
structure LegacyAudioEventOutput where
  frames : List (List Int)
  leftover : List Int
deriving DecidableEq

/-- The legacy server's `audioOutput` callback (server lines 110-163).
`let audioBuffer: Int16Array | null = null` is declared inside the callback
(line 112), so every event starts with an empty carry buffer; the
`if (audioBuffer)` combine branch (lines 136-141) is therefore embedded
as-is but can never see a non-null buffer, and the leftover assigned at
lines 160-161 dies with the local when the callback returns. -/
def legacyAudioOutputEvent (newPcmSamples : List Int) : LegacyAudioEventOutput :=
  let audioBuffer : Option (List Int) := none
  let combinedSamples : List Int :=
    match audioBuffer with
    | some b => b ++ newPcmSamples
    | none => newPcmSamples
  let frames := chunksOf SAMPLES_PER_CHUNK combinedSamples
  { frames := frames
    leftover := combinedSamples.drop (SAMPLES_PER_CHUNK * frames.length) }

/-- The frames emitted across a sequence of legacy `audioOutput` events. -/
def legacyFramesAcrossEvents (events : List (List Int)) : List (List Int) :=
  match events with
  | [] => []
  | e :: rest => (legacyAudioOutputEvent e).frames ++ legacyFramesAcrossEvents rest

/-- Modelled from the spec, for comparison with `legacyFramesAcrossEvents`:
the carry-over framer the spec describes, in which leftover samples
insufficient to fill a frame persist in a single per-channel buffer and are
prepended to the next event's samples. -/
def carryOverFramesAcrossEvents (events : List (List Int)) : List (List Int) :=
  (events.foldl
    (fun (acc : List (List Int) × List Int) e =>
      let combined := acc.2 ++ e
      let frames := chunksOf SAMPLES_PER_CHUNK combined
      (acc.1 ++ frames, combined.drop (SAMPLES_PER_CHUNK * frames.length)))
    ([], [])).1

/-! ## Channel registry, idle sweep, and `handleClose` -/

/-- The three module-level maps of the main server (lines 515-517):
`channelConversations`, `channelClients`, and `clientChannels`. Conversation
handles are identified by a `Nat`. -/
structure ChannelRegistry where
  channelConversations : List (String × Nat)
  channelClients : List (String × List Client)
  clientChannels : List (Client × String)
deriving DecidableEq

/-- `5 * 60 * 1000` from the cleanup interval body. -/
def fiveMinsInMs : Nat := 5 * 60 * 1000

/-- The `setInterval` period of the session cleanup check (60000 ms). -/
def cleanupIntervalMs : Nat := 60000

/-- Result of one run of the periodic session cleanup body. -/
structure SweepResult where
  registry : ChannelRegistry
  closedSessions : List String
  disconnectedClients : List Client
deriving DecidableEq

/-- The body of the main server's session cleanup `setInterval` (lines
492-512): for every active engine session whose last activity is more than
five minutes before `now`, call `bedrockClient.closeSession`. The body
reads only the engine client's session table; it does not mention the
channel maps and closes no client socket, so the registry passes through
unchanged and no client is disconnected. `activeSessions` pairs each active
session id with its last-activity time. -/
def sessionCleanupSweep (now : Nat) (activeSessions : List (String × Nat))
    (reg : ChannelRegistry) : SweepResult :=
  { registry := reg
    closedSessions :=
      ((activeSessions.filter (fun p => decide (fiveMinsInMs < now - p.2))).map (fun p => p.1))
    disconnectedClients := [] }

/-- The 3000 ms bound of the `Promise.race` in `handleClose` (line 731). -/
def gracefulTimeoutMs : Nat := 3000

/-- Outcome data for one graceful-teardown attempt, supplied as an oracle
for the engine interactions `handleClose` awaits: how many of the three
graceful steps completed before a failure (3 = all), how long the graceful
sequence took, and whether the forced-close fallback itself fails. -/
structure TeardownOracle where
  stepsCompleted : Nat
  durationMs : Nat
  forceCloseFails : Bool
deriving DecidableEq

/-- Side effects of one `handleClose` invocation. -/
structure CloseEffects where
  gracefulSteps : List String
  forcedCloseAttempted : Bool
  registryRemovals : Nat
deriving DecidableEq

/-- Effects of a `handleClose` invocation that performs no teardown. -/
def noCloseEffects : CloseEffects :=
  { gracefulSteps := [], forcedCloseAttempted := false, registryRemovals := 0 }

/-- The three graceful teardown steps, in source order (lines 725-727). -/
def gracefulStepNames : List String := ["endAudioContent", "endPrompt", "close"]

/-- The main server's `handleClose` (lines 700-756). Look up the closing
client's channel; if none, return. Remove the client from the channel's
set; if the set became empty, and the channel has a conversation whose
engine session is active, race the graceful sequence (audio-end,
prompt-end, close) against the 3000 ms timeout, falling back to
`bedrockClient.closeSession` (the forced close) when the race is lost or a
step fails; then — teardown attempted or not — delete the channel from
both channel maps. Finally delete the client from `clientChannels`.
`activeSessions` is the engine client's session table
(`isSessionActive`). -/
def handleClose (o : TeardownOracle) (activeSessions : List (String × Nat))
    (reg : ChannelRegistry) (ws : Client) : ChannelRegistry × CloseEffects :=
  match getA reg.clientChannels ws with
  | none => (reg, noCloseEffects)
  | some cid =>
    match getA reg.channelClients cid with
    | none => ({ reg with clientChannels := delA reg.clientChannels ws }, noCloseEffects)
    | some clients =>
      if (removeAll clients ws).isEmpty then
        ({ channelConversations := delA reg.channelConversations cid
           channelClients := delA reg.channelClients cid
           clientChannels := delA reg.clientChannels ws },
          match getA reg.channelConversations cid, getA activeSessions cid with
          | some _, some _ =>
            if 3 ≤ o.stepsCompleted ∧ o.durationMs < gracefulTimeoutMs then
              { gracefulSteps := gracefulStepNames
                forcedCloseAttempted := false
                registryRemovals := 1 }
            else
              { gracefulSteps := gracefulStepNames.take o.stepsCompleted
                forcedCloseAttempted := true
                registryRemovals := 1 }
          | _, _ =>
            { gracefulSteps := [], forcedCloseAttempted := false, registryRemovals := 1 })
      else
        ({ reg with
             channelClients := setA reg.channelClients cid (removeAll clients ws)
             clientChannels := delA reg.clientChannels ws }, noCloseEffects)

/-! ## The create/join race of `initializeOrJoinChannel` (lines 635-672)

The main server's `initializeOrJoinChannel` checks
`channelConversations.has(conversationId)` and, for a new id, calls
`bedrockClient.createConversation` and `await conversation.startSession()`
BEFORE inserting into the maps. The `await` is a suspension point of the
JavaScript event loop, so the function is embedded as two atomic segments:
everything up to the `await` (the existence check plus
`createConversation`), and everything after it (map registration plus
client attachment). A joiner that finds the channel already registered runs
in a single segment, since the existing-channel branch contains no
`await` before attachment. The engine client (`client.ts`) is not under
src; `createConversation` is modelled as allocating a fresh handle id, and
the race theorems rely only on how many times it is invoked. -/

/-- Shared state touched by concurrent joiners. -/
structure JoinSim where
  registry : List (String × Nat)
  clientSets : List (String × List Nat)
  clientChannels : List (Nat × String)
  nextHandle : Nat
  createCalls : Nat
deriving DecidableEq

/-- The empty initial state (no channels, no clients). -/
def emptyJoinSim : JoinSim :=
  { registry := [], clientSets := [], clientChannels := [], nextHandle := 0, createCalls := 0 }

/-- Where a joiner's control flow currently stands. -/
inductive JoinerPhase where
  /-- Not yet run. -/
  | ready
  /-- Suspended at `await conversation.startSession()`, holding the freshly
  created conversation handle. -/
  | awaitingStart (h : Nat)
  /-- Finished. -/
  | done
deriving DecidableEq

/-- Client attachment (lines 654-656): add the socket to the channel's
client set and record its channel. -/
def joinAttach (s : JoinSim) (cid : String) (ws : Nat) : JoinSim :=
  { s with
      clientSets := setA s.clientSets cid (((getA s.clientSets cid).getD []) ++ [ws])
      clientChannels := setA s.clientChannels ws cid }

/-- One atomic segment of a joiner's execution of
`initializeOrJoinChannel` for channel `cid` and socket `ws`. -/
def joinerStep (cid : String) (ws : Nat) (s : JoinSim) (p : JoinerPhase) :
    JoinSim × JoinerPhase :=
  match p with
  | JoinerPhase.ready =>
    match getA s.registry cid with
    | some _ =>
      -- Existing channel: attach synchronously (lines 640-642, 654-656).
      (joinAttach s cid ws, JoinerPhase.done)
    | none =>
      -- New channel: createConversation, then suspend at startSession
      -- (lines 644-646).
      ({ s with nextHandle := s.nextHandle + 1, createCalls := s.createCalls + 1 },
        JoinerPhase.awaitingStart s.nextHandle)
  | JoinerPhase.awaitingStart h =>
    -- Resume after the await: register the conversation and a fresh client
    -- set (lines 648-649), then attach (lines 654-656).
    (joinAttach
      { s with
          registry := setA s.registry cid h
          clientSets := setA s.clientSets cid [] } cid ws,
      JoinerPhase.done)
  | JoinerPhase.done => (s, JoinerPhase.done)

/-- Two joiners for the same channel id, with the shared state. -/
structure TwoJoiners where
  st : JoinSim
  p1 : JoinerPhase
  p2 : JoinerPhase
deriving DecidableEq

/-- Run two joiners (sockets `ws1`, `ws2`) for the same channel id under an
event-loop schedule: `true` advances joiner 1 by one atomic segment,
`false` advances joiner 2. -/
def runTwoJoiners (cid : String) (ws1 ws2 : Nat) (sched : List Bool) : TwoJoiners :=
  sched.foldl
    (fun t pick =>
      if pick then
        let r := joinerStep cid ws1 t.st t.p1
        { t with st := r.1, p1 := r.2 }
      else
        let r := joinerStep cid ws2 t.st t.p2
        { t with st := r.1, p2 := r.2 })
    { st := emptyJoinSim, p1 := JoinerPhase.ready, p2 := JoinerPhase.ready }

/-! ## Inbound message handling (provider adapters' decode paths) -/

/-- A JSON value, as far as the adapters inspect one. -/
inductive Json where
  | jstr (s : String)
  | jnum (n : Int)
  | jbool (b : Bool)
  | jnull
  | jobj (fields : List (String × Json))

/-- Field lookup in a JSON object's field list. -/
def jlookup : List (String × Json) → String → Option Json
  | [], _ => none
  | (k, v) :: t, key => if k = key then some v else jlookup t key

/-- `j.key` property access: an object's field, or `undefined` (`none`). -/
def jget (j : Json) (key : String) : Option Json :=
  match j with
  | Json.jobj fields => jlookup fields key
  | _ => none

/-- A field access that is used as a string (base64 payloads, event tags). -/
def jstrField (j : Json) (key : String) : Option String :=
  match jget j key with
  | some (Json.jstr s) => some s
  | _ => none

/-- A raw inbound WebSocket message: either bytes/text that
`JSON.parse` rejects, or text that parses to a JSON value. -/
inductive RawMsg where
  | binary (bytes : List Nat)
  | text (j : Json)

/-- `JSON.parse(msg.toString())`: fails (throws) on unparseable input. -/
def parseJson : RawMsg → Option Json
  | RawMsg.binary _ => none
  | RawMsg.text j => some j

/-- What an adapter streamed to the engine, when it streamed anything:
either the bytes a base64 payload string encodes, or raw binary. -/
inductive StreamedAudio where
  | fromBase64 (content : String)
  | rawBinary (bytes : List Nat)
deriving DecidableEq

/-- The raw byte content of a message (`Buffer.from(message)`); the byte
rendering of parsed text is not itself inspected by any claim. -/
def rawBytes : RawMsg → List Nat
  | RawMsg.binary b => b
  | RawMsg.text _ => []

/-- Disposition of one inbound message by one adapter: what was streamed to
the engine, which control event was dispatched, what was logged, whether an
exception escaped the adapter, and whether the adapter closed the client's
connection. -/
structure InboundResult where
  streamedAudio : Option StreamedAudio
  controlDispatched : Option String
  logs : List String
  threw : Bool
  closedConnection : Bool
deriving DecidableEq

/-- The result of an adapter that did nothing. -/
def noInboundAction : InboundResult :=
  { streamedAudio := none, controlDispatched := none, logs := [], threw := false,
    closedConnection := false }

/-- `BrowserIntegration.tryProcessAudioInput` (telephony/browser lines
13-24): parse the message as JSON and stream the base64 content at
`event.audioInput.content`; the whole body sits in a `try` whose `catch`
is empty, so a parse failure or a missing property path is swallowed
silently — nothing is logged and nothing escapes. -/
def browserTryProcessAudioInput (isOn : Bool) (msg : RawMsg) : InboundResult :=
  if isOn then
    match parseJson msg with
    | none => noInboundAction
    | some j =>
      match (jget j "event").bind (fun e => jget e "audioInput") with
      | none => noInboundAction
      | some a =>
        match jstrField a "content" with
        | some content =>
          { noInboundAction with streamedAudio := some (StreamedAudio.fromBase64 content) }
        | none => noInboundAction
  else noInboundAction

/-- `GenesysIntegration.tryProcessAudioInput` (telephony/genesys lines
78-97): parse the message, dispatch on `data.event || data.type` through
the handler map; a parse failure, an unhandled event tag, or an audio
message without a payload is logged via `console.error`; nothing escapes
the surrounding `try`/`catch`. -/
def genesysTryProcessAudioInput (isOn : Bool) (msg : RawMsg) : InboundResult :=
  if isOn then
    match parseJson msg with
    | none => { noInboundAction with logs := ["Error processing Genesys audio data:"] }
    | some j =>
      match
        (match jstrField j "event" with
         | some s => some s
         | none => jstrField j "type") with
      | some et =>
        if et = "connect" then { noInboundAction with controlDispatched := some "connect" }
        else if et = "audio" then
          match (jget j "audio").bind (fun a => jstrField a "payload") with
          | some payload =>
            { noInboundAction with streamedAudio := some (StreamedAudio.fromBase64 payload) }
          | none => { noInboundAction with logs := ["Invalid audio payload:"] }
        else if et = "error" then { noInboundAction with logs := ["Genesys AudioHook error:"] }
        else { noInboundAction with logs := ["Caught unclassified Genesys message:"] }
      | none => { noInboundAction with logs := ["Caught unclassified Genesys message:"] }
  else noInboundAction

/-- `VonageIntegration.processAudioData` (telephony/vonage lines 58-67):
wrap the raw bytes in a buffer and stream them; any error is caught and
logged, nothing escapes. -/
def vonageProcessAudioData (isOn : Bool) (msg : RawMsg) : InboundResult :=
  if isOn then
    { noInboundAction with streamedAudio := some (StreamedAudio.rawBinary (rawBytes msg)) }
  else noInboundAction

/-- `tryProcessNovaSonicMessage` (server lines 602-633): parse the message
and dispatch `jsonMsg.type` through the control-handler map
(promptStart / systemPrompt / audioStart / stopAudio); an unknown type is
ignored and the catch-all `catch (e) {}` swallows parse failures silently. -/
def tryProcessNovaSonicMessage (msg : RawMsg) : InboundResult :=
  match parseJson msg with
  | none => noInboundAction
  | some j =>
    match jstrField j "type" with
    | some t =>
      if t = "promptStart" ∨ t = "systemPrompt" ∨ t = "audioStart" ∨ t = "stopAudio" then
        { noInboundAction with controlDispatched := some t }
      else noInboundAction
    | none => noInboundAction

/-- `TwilioIntegration.tryProcessAudioInput` (tools/get-nbo second document,
lines 145-161): after the enabled check, `JSON.parse(msg.toString())` runs
OUTSIDE the `try` block, so an unparseable message THROWS a SyntaxError past
the adapter to its caller. For parsed messages the handler map dispatches on
`data.event`: "start" records the stream sid on the conversation, "media"
decodes the base64 mulaw payload and streams it (a missing `media.payload`
raises inside the `try` and is logged by the catch), and any other event is
logged as unclassified. -/
def twilioTryProcessAudioInput (isOn : Bool) (msg : RawMsg) : InboundResult :=
  if isOn then
    match parseJson msg with
    | none => { noInboundAction with threw := true }
    | some j =>
      match jstrField j "event" with
      | some et =>
        if et = "start" then { noInboundAction with controlDispatched := some "start" }
        else if et = "media" then
          match (jget j "media").bind (fun m => jstrField m "payload") with
          | some payload =>
            { noInboundAction with streamedAudio := some (StreamedAudio.fromBase64 payload) }
          | none => { noInboundAction with logs := ["Error processing Twilio audio data:"] }
        else { noInboundAction with logs := ["Caught unclassified Twilio message:"] }
      | none => { noInboundAction with logs := ["Caught unclassified Twilio message:"] }
  else noInboundAction

/-- Disposition of one raw message by `handleMessage` (server lines
674-698). -/
structure HandleMessageResult where
  errorEventSent : Bool
  closedConnection : Bool
deriving DecidableEq

/-- `handleMessage`'s dispatch (server lines 687-697): the browser, Vonage,
and Twilio integrations and the NovaSonic control parser run in sequence
inside one `try`; the only adapter exception that can escape to it is the
Twilio parse failure, which the surrounding `catch` turns into an error
event sent to the client. No path closes the client's connection. -/
def handleMessageDisposition (twilioOn : Bool) (msg : RawMsg) : HandleMessageResult :=
  { errorEventSent := (twilioTryProcessAudioInput twilioOn msg).threw
    closedConnection := false }

/-! ## Helper lemmas -/

theorem mem_sendToOpen (clients : List Client) (m : OutMsg) (p : Client × OutMsg) :
    p ∈ sendToOpen clients m ↔ p.1 ∈ clients ∧ p.1.readyState = wsOPEN ∧ p.2 = m := by
  induction clients with
  | nil => simp [sendToOpen]
  | cons c rest ih =>
    by_cases hc : c.readyState = wsOPEN <;>
      simp [sendToOpen, hc, ih, Prod.ext_iff] <;> aesop

theorem mem_broadcastFrames (clients : List Client) (frames : List (List Int))
    (p : Client × OutMsg) :
    p ∈ broadcastFrames clients frames ↔
      ∃ f, f ∈ frames ∧ p ∈ sendToOpen clients (OutMsg.rawChunk f) := by
  induction frames with
  | nil => simp [broadcastFrames]
  | cons f rest ih => simp [broadcastFrames, ih]

theorem mem_twilioTryProcessAudioOutput (isOn : Bool) (pcm : List Int)
    (clients : List Client) (sid : String) (p : Client × OutMsg) :
    p ∈ twilioTryProcessAudioOutput isOn pcm clients sid ↔
      isOn = true ∧ p.1 ∈ clients ∧ p.1.readyState = wsOPEN ∧
        p.2 = OutMsg.twilioMedia (mulawEncode (resample16kHzTo8kHz pcm)) sid := by
  unfold twilioTryProcessAudioOutput
  cases isOn <;> simp [mem_sendToOpen]

theorem length_mulawEncode (l : List Int) : (mulawEncode l).length = l.length := by
  simp [mulawEncode]

theorem length_mulawDecode (l : List Nat) : (mulawDecode l).length = l.length := by
  simp [mulawDecode]

theorem length_resample16kHzTo8kHz (l : List Int) :
    (resample16kHzTo8kHz l).length = (l.length + 1) / 2 := by
  simp [resample16kHzTo8kHz]

theorem length_chunksOf {α : Type u} (n : Nat) (l : List α) :
    (chunksOf n l).length = l.length / n := by
  simp [chunksOf]

theorem length_of_mem_chunksOf {α : Type u} {n : Nat} {l : List α} {f : List α}
    (hf : f ∈ chunksOf n l) : f.length = n := by
  unfold chunksOf at hf
  rcases List.mem_map.mp hf with ⟨i, hi, rfl⟩
  have hi' : i + 1 ≤ l.length / n := List.mem_range.mp hi
  have h1 : n * (i + 1) ≤ l.length := by
    calc n * (i + 1) ≤ n * (l.length / n) := Nat.mul_le_mul_left n hi'
    _ ≤ l.length := by rw [Nat.mul_comm]; exact Nat.div_mul_le_self _ _
  rw [Nat.mul_succ] at h1
  have h2 : (l.drop (n * i)).length = l.length - n * i := List.length_drop _ _
  have h3 : ((l.drop (n * i)).take n).length = min n (l.length - n * i) := by
    rw [List.length_take, h2]
  rw [h3]
  omega

theorem getA_delA {α : Type u} {β : Type v} [DecidableEq α] (l : List (α × β)) (k : α) :
    getA (delA l k) k = none := by
  induction l with
  | nil => rfl
  | cons p t ih =>
    obtain ⟨a, b⟩ := p
    by_cases h : a = k <;> simp [delA, h, getA, ih]

/-! ## Claim theorems -/

/-- C7: for every canonical Audio Frame of 320 16-bit samples, encoding it
through the narrowband (Genesys) outbound path — decimation by 2 taking
every other sample, then mulaw encoding — and decoding the resulting wire
payload through the same provider's inbound path (mulaw decode, no
upsampling) yields a PCM signal of exactly 160 samples. -/
theorem genesys_narrowband_roundtrip_length (pcm : List Int) (h : pcm.length = 320) :
    (genesysDecodeAudioPayload (genesysEncodeOutboundPayload pcm)).length = 160 := by
  simp [genesysDecodeAudioPayload, genesysEncodeOutboundPayload,
    length_mulawDecode, length_mulawEncode, length_resample16kHzTo8kHz, h]

/-- Witness for C7 at a concrete 320-sample frame. -/
theorem genesys_narrowband_roundtrip_length_witness :
    (List.replicate 320 (0 : Int)).length = 320 ∧
      (genesysDecodeAudioPayload
        (genesysEncodeOutboundPayload (List.replicate 320 (0 : Int)))).length = 160 :=
  ⟨by rw [List.length_replicate],
    genesys_narrowband_roundtrip_length _ (by rw [List.length_replicate])⟩

/-- Folding the Twilio-payload projection over raw-chunk sends skips them
all. -/
theorem twilioMediaPayloadsTo_rawChunk_sendToOpen (c : Client) (clients : List Client)
    (f : List Int) (rest : List (Client × OutMsg)) :
    twilioMediaPayloadsTo c (sendToOpen clients (OutMsg.rawChunk f) ++ rest) =
      twilioMediaPayloadsTo c rest := by
  induction clients with
  | nil => rfl
  | cons c' t ih =>
    by_cases h : c'.readyState = wsOPEN <;>
      simpa [sendToOpen, h, twilioMediaPayloadsTo] using ih

/-- The browser envelope path contributes no Twilio media payloads. -/
theorem twilioMediaPayloadsTo_browser (c : Client) (isOn : Bool) (data : String)
    (clients : List Client) :
    twilioMediaPayloadsTo c (browserTryProcessAudioOutput isOn data clients) = [] := by
  unfold browserTryProcessAudioOutput
  split
  · induction clients with
    | nil => rfl
    | cons c' t ih =>
      by_cases h : c'.readyState = wsOPEN <;>
        simpa [sendToOpen, h, twilioMediaPayloadsTo] using ih
  · rfl

/-- The canonical-chunk loop contributes no Twilio media payloads. -/
theorem twilioMediaPayloadsTo_broadcastFrames (c : Client) (clients : List Client)
    (frames : List (List Int)) (rest : List (Client × OutMsg)) :
    twilioMediaPayloadsTo c (broadcastFrames clients frames ++ rest) =
      twilioMediaPayloadsTo c rest := by
  induction frames with
  | nil => rfl
  | cons f t ih =>
    simp only [broadcastFrames, List.append_assoc]
    rw [twilioMediaPayloadsTo_rawChunk_sendToOpen, ih]

/-- The Twilio media payloads one open client receives from a main-server
audioOutput event with the Twilio integration enabled: exactly one message,
carrying the whole event buffer decimated 2:1 and mulaw-encoded. -/
theorem twilioMediaPayloadsTo_mainHandler (c : Client) (sid data : String)
    (browserOn : Bool) (pcm : List Int) (hopen : c.readyState = wsOPEN) :
    twilioMediaPayloadsTo c (mainAudioOutputHandler true browserOn [c] sid data pcm).sends =
      [mulawEncode (resample16kHzTo8kHz pcm)] := by
  have h1 : (mainAudioOutputHandler true browserOn [c] sid data pcm).sends =
      broadcastFrames [c] (chunksOf SAMPLES_PER_CHUNK pcm) ++
        twilioTryProcessAudioOutput true pcm [c] sid ++
        browserTryProcessAudioOutput browserOn data [c] := by
    simp [mainAudioOutputHandler]
  have h2 : twilioTryProcessAudioOutput true pcm [c] sid =
      [(c, OutMsg.twilioMedia (mulawEncode (resample16kHzTo8kHz pcm)) sid)] := by
    simp [twilioTryProcessAudioOutput, sendToOpen, hopen]
  have h3 : ∀ rest : List (Client × OutMsg),
      twilioMediaPayloadsTo c
          ((c, OutMsg.twilioMedia (mulawEncode (resample16kHzTo8kHz pcm)) sid) :: rest) =
        mulawEncode (resample16kHzTo8kHz pcm) :: twilioMediaPayloadsTo c rest := by
    intro rest
    simp [twilioMediaPayloadsTo]
  rw [h1, List.append_assoc, twilioMediaPayloadsTo_broadcastFrames, h2,
    List.singleton_append, h3, twilioMediaPayloadsTo_browser]

/-- C6 counterexample: for a 1280-byte (640-sample) audioOutput event on a
channel with one open Twilio client, the real Twilio path (tools/get-nbo
second document, lines 163-190) sends exactly ONE media message whose
payload is the whole event decimated 2:1 — 320 mulaw samples — not the two
160-sample media frames the claim states. -/
theorem twilio_two_media_frames_counterexample :
    (twilioMediaPayloadsTo (Client.mk 0 wsOPEN Provider.twilio)
        (mainAudioOutputHandler true false [Client.mk 0 wsOPEN Provider.twilio] "MZ" ""
          (List.replicate 640 (0 : Int))).sends).length = 1 ∧
      (1 : Nat) ≠ 2 ∧
      ∀ pl ∈ twilioMediaPayloadsTo (Client.mk 0 wsOPEN Provider.twilio)
          (mainAudioOutputHandler true false [Client.mk 0 wsOPEN Provider.twilio] "MZ" ""
            (List.replicate 640 (0 : Int))).sends,
        pl.length = 320 ∧ pl.length ≠ 160 := by
  have h := twilioMediaPayloadsTo_mainHandler (Client.mk 0 wsOPEN Provider.twilio)
    "MZ" "" false (List.replicate 640 (0 : Int)) rfl
  have hlen : (mulawEncode (resample16kHzTo8kHz (List.replicate 640 (0 : Int)))).length = 320 := by
    rw [length_mulawEncode, length_resample16kHzTo8kHz, List.length_replicate]
  refine ⟨by rw [h]; rfl, by decide, ?_⟩
  intro pl hpl
  rw [h] at hpl
  simp only [List.mem_cons, List.not_mem_nil, or_false] at hpl
  rw [hpl, hlen]
  exact ⟨rfl, by decide⟩

/-- C6 amended: if the engine emits a single audioOutput event carrying
1280 bytes (640 samples, two canonical frames) on a channel with one open
Twilio client attached, that client receives exactly ONE outbound Twilio
media message, whose payload is the entire event buffer decimated 2:1 and
mulaw-encoded — 320 narrowband samples — rather than two time-aligned
160-sample frames. -/
theorem twilio_client_receives_one_media_message
    (pcm : List Int) (c : Client) (sid data : String) (browserOn : Bool)
    (hlen : pcm.length = 640) (hopen : c.readyState = wsOPEN) :
    twilioMediaPayloadsTo c (mainAudioOutputHandler true browserOn [c] sid data pcm).sends =
      [mulawEncode (resample16kHzTo8kHz pcm)] ∧
    ∀ pl ∈ twilioMediaPayloadsTo c
        (mainAudioOutputHandler true browserOn [c] sid data pcm).sends,
      pl.length = 320 := by
  have h := twilioMediaPayloadsTo_mainHandler c sid data browserOn pcm hopen
  refine ⟨h, ?_⟩
  intro pl hpl
  rw [h] at hpl
  simp only [List.mem_cons, List.not_mem_nil, or_false] at hpl
  rw [hpl, length_mulawEncode, length_resample16kHzTo8kHz, hlen]

/-- Witness for the amended C6 at a concrete 640-sample buffer and one open
Twilio client. -/
theorem twilio_client_receives_one_media_message_witness :
    (List.replicate 640 (0 : Int)).length = 640 ∧
      (Client.mk 0 wsOPEN Provider.twilio).readyState = wsOPEN ∧
      (twilioMediaPayloadsTo (Client.mk 0 wsOPEN Provider.twilio)
          (mainAudioOutputHandler true false [Client.mk 0 wsOPEN Provider.twilio]
            "MZ" "" (List.replicate 640 (0 : Int))).sends =
        [mulawEncode (resample16kHzTo8kHz (List.replicate 640 (0 : Int)))] ∧
      ∀ pl ∈ twilioMediaPayloadsTo (Client.mk 0 wsOPEN Provider.twilio)
          (mainAudioOutputHandler true false [Client.mk 0 wsOPEN Provider.twilio]
            "MZ" "" (List.replicate 640 (0 : Int))).sends,
        pl.length = 320) :=
  ⟨by rw [List.length_replicate], rfl,
    twilio_client_receives_one_media_message _ _ "MZ" "" false
      (by rw [List.length_replicate]) rfl⟩

/-- Computation helper: a single canonical frame is its own chunking. -/
theorem chunksOf_replicate_320 (x : Int) :
    chunksOf SAMPLES_PER_CHUNK (List.replicate 320 x) = [List.replicate 320 x] := by
  unfold chunksOf SAMPLES_PER_CHUNK
  rw [List.length_replicate]
  norm_num [List.range_succ, List.take_replicate]

/-- Every send performed by the main audioOutput handler targets an open
client of the channel. -/
theorem mainAudioOutputHandler_sends_subset_open
    (twilioOn browserOn : Bool) (clients : List Client) (sid data : String)
    (pcm : List Int) :
    ∀ p, p ∈ (mainAudioOutputHandler twilioOn browserOn clients sid data pcm).sends →
      p.1 ∈ clients ∧ p.1.readyState = wsOPEN := by
  intro p hp
  have hp' : p ∈ broadcastFrames clients (chunksOf SAMPLES_PER_CHUNK pcm) ++
      (if twilioOn then twilioTryProcessAudioOutput twilioOn pcm clients sid else []) ++
      browserTryProcessAudioOutput browserOn data clients := hp
  rcases List.mem_append.mp hp' with h | h
  · rcases List.mem_append.mp h with h | h
    · rcases (mem_broadcastFrames _ _ _).mp h with ⟨f, _, hs⟩
      have hm := (mem_sendToOpen _ _ _).mp hs
      exact ⟨hm.1, hm.2.1⟩
    · by_cases ht : twilioOn
      · rw [if_pos ht] at h
        have hm := (mem_twilioTryProcessAudioOutput _ _ _ _ _).mp h
        exact ⟨hm.2.1, hm.2.2.1⟩
      · rw [if_neg ht] at h
        cases h
  · unfold browserTryProcessAudioOutput at h
    split at h
    · have hm := (mem_sendToOpen _ _ _).mp h
      exact ⟨hm.1, hm.2.1⟩
    · cases h

/-- C5 counterexample: the claim says the canonical frame is rebroadcast
as-is only to clients whose adapter consumes canonical frames directly, and
that a provider's encoding path runs only for providers present among the
channel's clients. In the code, the raw canonical chunk is sent to an open
Twilio-tagged client as well, and the Twilio path is invoked (the enabled
flag gates it) on a channel whose only client is a browser client. -/
theorem audio_fanout_per_provider_counterexample :
    ((Client.mk 0 wsOPEN Provider.twilio), OutMsg.rawChunk (List.replicate 320 (3 : Int))) ∈
        (mainAudioOutputHandler true false [Client.mk 0 wsOPEN Provider.twilio]
          "MZ" "" (List.replicate 320 (3 : Int))).sends ∧
      (Client.mk 0 wsOPEN Provider.twilio).provider = Provider.twilio ∧
      (mainAudioOutputHandler true false [Client.mk 1 wsOPEN Provider.browser]
          "MZ" "" (List.replicate 320 (3 : Int))).twilioCalls = 1 ∧
      (Client.mk 1 wsOPEN Provider.browser).provider ≠ Provider.twilio := by
  refine ⟨?_, rfl, rfl, by decide⟩
  have h : ((Client.mk 0 wsOPEN Provider.twilio : Client),
      OutMsg.rawChunk (List.replicate 320 (3 : Int))) ∈
      broadcastFrames [Client.mk 0 wsOPEN Provider.twilio]
        (chunksOf SAMPLES_PER_CHUNK (List.replicate 320 (3 : Int))) := by
    rw [chunksOf_replicate_320]
    exact (mem_broadcastFrames _ _ _).mpr
      ⟨_, List.mem_singleton.mpr rfl, (mem_sendToOpen _ _ _).mpr ⟨by simp, rfl, rfl⟩⟩
  exact List.mem_append_left _ (List.mem_append_left _ h)

/-- C5 amended: for every audioOutput event, each full 320-sample chunk is
sent to every open client regardless of provider; the Twilio and browser
processing paths are each invoked exactly once per event (not once per
client), gated by their process-level enable flags rather than by the
providers present among the channel's clients; and every send targets an
open client of the channel. -/
theorem mainAudioOutputHandler_fanout
    (twilioOn browserOn : Bool) (clients : List Client) (sid data : String)
    (pcm : List Int) :
    (mainAudioOutputHandler twilioOn browserOn clients sid data pcm).twilioCalls =
        (if twilioOn then 1 else 0) ∧
      (mainAudioOutputHandler twilioOn browserOn clients sid data pcm).browserCalls =
        (if browserOn then 1 else 0) ∧
      (∀ c, c ∈ clients → c.readyState = wsOPEN →
        ∀ f, f ∈ chunksOf SAMPLES_PER_CHUNK pcm →
          (c, OutMsg.rawChunk f) ∈
            (mainAudioOutputHandler twilioOn browserOn clients sid data pcm).sends) ∧
      (∀ p, p ∈ (mainAudioOutputHandler twilioOn browserOn clients sid data pcm).sends →
        p.1 ∈ clients ∧ p.1.readyState = wsOPEN) := by
  refine ⟨rfl, rfl, ?_, mainAudioOutputHandler_sends_subset_open _ _ _ _ _ _⟩
  intro c hc hopen f hf
  have h : (c, OutMsg.rawChunk f) ∈
      broadcastFrames clients (chunksOf SAMPLES_PER_CHUNK pcm) :=
    (mem_broadcastFrames _ _ _).mpr ⟨f, hf, (mem_sendToOpen _ _ _).mpr ⟨hc, hopen, rfl⟩⟩
  exact List.mem_append_left _ (List.mem_append_left _ h)

/-- Witness for the amended C5 at a concrete open client and one frame. -/
theorem mainAudioOutputHandler_fanout_witness :
    ((Client.mk 2 wsOPEN Provider.vonage), OutMsg.rawChunk (List.replicate 320 (5 : Int))) ∈
      (mainAudioOutputHandler false false [Client.mk 2 wsOPEN Provider.vonage]
        "s" "" (List.replicate 320 (5 : Int))).sends :=
  (mainAudioOutputHandler_fanout false false _ "s" "" _).2.2.1 _ (by simp) rfl _
    (by rw [chunksOf_replicate_320]; exact List.mem_singleton.mpr rfl)

/-- C10: on every outbound fan-out path (structured-event broadcast,
streamComplete, canonical PCM chunks, Twilio media frames, Genesys audio
frames, browser audioOutput envelopes), a message is sent to a client only
if that client's WebSocket readyState equals OPEN; clients in any other
state are silently skipped; and every open client of the channel receives
the broadcast messages, so a closed client never aborts delivery to the
other clients. -/
theorem fanout_sends_only_to_open_clients
    (clients : List Client) (eventName data sid streamId : String) (pcm : List Int)
    (twilioOn browserOn genesysOn : Bool) :
    (∀ p, p ∈ broadcastConversationEvent clients eventName data →
        p.1 ∈ clients ∧ p.1.readyState = wsOPEN) ∧
      (∀ c, c ∈ clients → c.readyState = wsOPEN →
        (c, OutMsg.jsonEvent eventName data) ∈ broadcastConversationEvent clients eventName data) ∧
      (∀ p, p ∈ broadcastStreamComplete clients →
        p.1 ∈ clients ∧ p.1.readyState = wsOPEN) ∧
      (∀ c, c ∈ clients → c.readyState = wsOPEN →
        (c, OutMsg.streamComplete) ∈ broadcastStreamComplete clients) ∧
      (∀ p, p ∈ (mainAudioOutputHandler twilioOn browserOn clients sid data pcm).sends →
        p.1 ∈ clients ∧ p.1.readyState = wsOPEN) ∧
      (∀ p, p ∈ genesysTryProcessAudioOutput genesysOn pcm clients streamId →
        p.1 ∈ clients ∧ p.1.readyState = wsOPEN) ∧
      (∀ p, p ∈ browserTryProcessAudioOutput browserOn data clients →
        p.1 ∈ clients ∧ p.1.readyState = wsOPEN) ∧
      (∀ p, p ∈ twilioTryProcessAudioOutput twilioOn pcm clients sid →
        p.1 ∈ clients ∧ p.1.readyState = wsOPEN) := by
  refine ⟨?_, ?_, ?_, ?_, mainAudioOutputHandler_sends_subset_open _ _ _ _ _ _, ?_, ?_, ?_⟩
  · intro p hp
    have hm := (mem_sendToOpen _ _ _).mp hp
    exact ⟨hm.1, hm.2.1⟩
  · intro c hc hopen
    exact (mem_sendToOpen _ _ _).mpr ⟨hc, hopen, rfl⟩
  · intro p hp
    have hm := (mem_sendToOpen _ _ _).mp hp
    exact ⟨hm.1, hm.2.1⟩
  · intro c hc hopen
    exact (mem_sendToOpen _ _ _).mpr ⟨hc, hopen, rfl⟩
  · intro p hp
    unfold genesysTryProcessAudioOutput at hp
    split at hp
    · have hm := (mem_sendToOpen _ _ _).mp hp
      exact ⟨hm.1, hm.2.1⟩
    · cases hp
  · intro p hp
    unfold browserTryProcessAudioOutput at hp
    split at hp
    · have hm := (mem_sendToOpen _ _ _).mp hp
      exact ⟨hm.1, hm.2.1⟩
    · cases hp
  · intro p hp
    have hm := (mem_twilioTryProcessAudioOutput _ _ _ _ _).mp hp
    exact ⟨hm.2.1, hm.2.2.1⟩

/-- Witness for C10: on a channel with one open and one closed client, the
structured-event broadcast reaches the open client and skips the closed
one. -/
theorem fanout_sends_only_to_open_clients_witness :
    ((Client.mk 0 wsOPEN Provider.browser), OutMsg.jsonEvent "textOutput" "d") ∈
        broadcastConversationEvent
          [Client.mk 0 wsOPEN Provider.browser, Client.mk 1 3 Provider.browser]
          "textOutput" "d" ∧
      ((Client.mk 1 3 Provider.browser), OutMsg.jsonEvent "textOutput" "d") ∉
        broadcastConversationEvent
          [Client.mk 0 wsOPEN Provider.browser, Client.mk 1 3 Provider.browser]
          "textOutput" "d" := by
  constructor
  · exact (fanout_sends_only_to_open_clients
      [Client.mk 0 wsOPEN Provider.browser, Client.mk 1 3 Provider.browser]
      "textOutput" "d" "s" "g" [] false false false).2.1 _ (by simp) rfl
  · intro h
    have hm := (fanout_sends_only_to_open_clients
      [Client.mk 0 wsOPEN Provider.browser, Client.mk 1 3 Provider.browser]
      "textOutput" "d" "s" "g" [] false false false).1 _ h
    exact absurd hm.2 (by decide)

/-- C1 (code-bug demonstration): two clients joining the same fresh channel
id under the event-loop interleaving in which the second joiner's existence
check runs while the first is suspended at `await conversation.startSession()`
(schedule `[true, false, true, false]`) make `createConversation` execute
twice; the second registration overwrites the first joiner's conversation
handle and resets the channel's client set, wiping the first client's
membership. Under the serialized schedule `[true, true, false]` exactly one
conversation is created and both clients share the channel — the behavior
the claim asserts for every schedule. -/
theorem join_race_creates_two_conversations :
    (runTwoJoiners "c" 1 2 [true, false, true, false]).st.createCalls = 2 ∧
      getA (runTwoJoiners "c" 1 2 [true, false, true, false]).st.registry "c" = some 1 ∧
      getA (runTwoJoiners "c" 1 2 [true, false, true, false]).st.clientSets "c" = some [2] ∧
      (runTwoJoiners "c" 1 2 [true, true, false]).st.createCalls = 1 ∧
      getA (runTwoJoiners "c" 1 2 [true, true, false]).st.clientSets "c" = some [1, 2] := by
  decide

set_option maxRecDepth 8000 in
/-- C2 (code-bug demonstration): with a first audioOutput event of 480
samples and a second of 320, the legacy handler emits the first event's
single full frame, discards its 160 leftover samples (they are assigned to
a local that dies with the callback), and then frames the second event from
scratch — instead of prepending the leftover to the second event's samples
as the claim (and the dead combine branch at lines 136-141) intends. -/
theorem legacy_carryover_buffer_reset_each_event :
    legacyFramesAcrossEvents
        [List.replicate 320 (0 : Int) ++ List.replicate 160 1, List.replicate 320 2] =
      [List.replicate 320 (0 : Int), List.replicate 320 2] ∧
    (legacyAudioOutputEvent (List.replicate 320 (0 : Int) ++ List.replicate 160 1)).leftover =
      List.replicate 160 (1 : Int) ∧
    carryOverFramesAcrossEvents
        [List.replicate 320 (0 : Int) ++ List.replicate 160 1, List.replicate 320 2] =
      [List.replicate 320 (0 : Int), List.replicate 160 (1 : Int) ++ List.replicate 160 2] ∧
    legacyFramesAcrossEvents
        [List.replicate 320 (0 : Int) ++ List.replicate 160 1, List.replicate 320 2] ≠
      carryOverFramesAcrossEvents
        [List.replicate 320 (0 : Int) ++ List.replicate 160 1, List.replicate 320 2] := by
  decide

/-- C3 counterexample: a channel idle for more than five minutes (last
activity 0, sweep at 300001 ms) has its engine session closed by the sweep,
but — contrary to the claim — the channel is NOT removed from the channel
registry (its entry is still present afterwards) and its attached client is
NOT disconnected. -/
theorem idle_sweep_counterexample :
    fiveMinsInMs < 300001 - 0 ∧
      "c" ∈ (sessionCleanupSweep 300001 [("c", 0)]
        (ChannelRegistry.mk [("c", 7)] [("c", [Client.mk 0 wsOPEN Provider.browser])]
          [(Client.mk 0 wsOPEN Provider.browser, "c")])).closedSessions ∧
      getA (sessionCleanupSweep 300001 [("c", 0)]
        (ChannelRegistry.mk [("c", 7)] [("c", [Client.mk 0 wsOPEN Provider.browser])]
          [(Client.mk 0 wsOPEN Provider.browser, "c")])).registry.channelConversations "c" =
        some 7 ∧
      (sessionCleanupSweep 300001 [("c", 0)]
        (ChannelRegistry.mk [("c", 7)] [("c", [Client.mk 0 wsOPEN Provider.browser])]
          [(Client.mk 0 wsOPEN Provider.browser, "c")])).disconnectedClients = [] := by
  decide

/-- C3 amended: any engine session idle for more than five minutes at sweep
time is closed by the next sweep (which runs on a one-minute period), even
when clients remain attached; but the sweep leaves the channel registry
unchanged — the channel is not removed — and disconnects no client. -/
theorem idle_sweep_closes_session_only
    (now : Nat) (activeSessions : List (String × Nat)) (reg : ChannelRegistry)
    (cid : String) (t : Nat)
    (hmem : (cid, t) ∈ activeSessions) (hidle : fiveMinsInMs < now - t) :
    cid ∈ (sessionCleanupSweep now activeSessions reg).closedSessions ∧
      (sessionCleanupSweep now activeSessions reg).registry = reg ∧
      (sessionCleanupSweep now activeSessions reg).disconnectedClients = [] := by
  refine ⟨?_, rfl, rfl⟩
  exact List.mem_map.mpr
    ⟨(cid, t), List.mem_filter.mpr ⟨hmem, by simpa using hidle⟩, rfl⟩

/-- Witness for the amended C3 at a concrete idle session. -/
theorem idle_sweep_closes_session_only_witness :
    (("c", 0) ∈ [("c", (0 : Nat))] ∧ fiveMinsInMs < 300001 - 0) ∧
      ("c" ∈ (sessionCleanupSweep 300001 [("c", 0)]
          (ChannelRegistry.mk [] [] [])).closedSessions ∧
        (sessionCleanupSweep 300001 [("c", 0)]
          (ChannelRegistry.mk [] [] [])).registry = ChannelRegistry.mk [] [] [] ∧
        (sessionCleanupSweep 300001 [("c", 0)]
          (ChannelRegistry.mk [] [] [])).disconnectedClients = []) :=
  ⟨⟨by decide, by decide⟩,
    idle_sweep_closes_session_only 300001 [("c", 0)] (ChannelRegistry.mk [] [] [])
      "c" 0 (by decide) (by decide)⟩

/-- C4: when the last client leaves a channel whose conversation exists and
whose engine session is active, `handleClose` attempts the graceful
audio-end, prompt-end, close sequence raced against the 3000 ms deadline;
when all three steps complete within the deadline no forced close happens,
and when a step fails or the deadline elapses the forced close fallback is
attempted; on either path the channel is removed from both channel maps,
and the removal is counted exactly once. -/
theorem handleClose_last_client_teardown
    (o : TeardownOracle) (acts : List (String × Nat)) (reg : ChannelRegistry)
    (ws : Client) (cid : String) (hnd t : Nat)
    (h1 : getA reg.clientChannels ws = some cid)
    (h2 : getA reg.channelClients cid = some [ws])
    (h3 : getA reg.channelConversations cid = some hnd)
    (h4 : getA acts cid = some t) :
    (handleClose o acts reg ws).2.registryRemovals = 1 ∧
      getA (handleClose o acts reg ws).1.channelConversations cid = none ∧
      getA (handleClose o acts reg ws).1.channelClients cid = none ∧
      (3 ≤ o.stepsCompleted ∧ o.durationMs < gracefulTimeoutMs →
        (handleClose o acts reg ws).2.gracefulSteps = gracefulStepNames ∧
          (handleClose o acts reg ws).2.forcedCloseAttempted = false) ∧
      (¬ (3 ≤ o.stepsCompleted ∧ o.durationMs < gracefulTimeoutMs) →
        (handleClose o acts reg ws).2.forcedCloseAttempted = true) := by
  have hrm : removeAll [ws] ws = [] := by simp [removeAll]
  by_cases hg : 3 ≤ o.stepsCompleted ∧ o.durationMs < gracefulTimeoutMs <;>
    simp [handleClose, h1, h2, h3, h4, hrm, getA_delA, hg]

/-- Witness for C4 at a concrete single-client channel with a live
session, in the outcome where all graceful steps finish in 100 ms. -/
theorem handleClose_last_client_teardown_witness :
    (getA (ChannelRegistry.mk [("c", 9)]
          [("c", [Client.mk 0 wsOPEN Provider.browser])]
          [(Client.mk 0 wsOPEN Provider.browser, "c")]).clientChannels
        (Client.mk 0 wsOPEN Provider.browser) = some "c" ∧
      getA (ChannelRegistry.mk [("c", 9)]
          [("c", [Client.mk 0 wsOPEN Provider.browser])]
          [(Client.mk 0 wsOPEN Provider.browser, "c")]).channelClients "c" =
        some [Client.mk 0 wsOPEN Provider.browser] ∧
      getA (ChannelRegistry.mk [("c", 9)]
          [("c", [Client.mk 0 wsOPEN Provider.browser])]
          [(Client.mk 0 wsOPEN Provider.browser, "c")]).channelConversations "c" = some 9 ∧
      getA [("c", (5 : Nat))] "c" = some 5) ∧
    ((handleClose (TeardownOracle.mk 3 100 false) [("c", 5)]
        (ChannelRegistry.mk [("c", 9)]
          [("c", [Client.mk 0 wsOPEN Provider.browser])]
          [(Client.mk 0 wsOPEN Provider.browser, "c")])
        (Client.mk 0 wsOPEN Provider.browser)).2.registryRemovals = 1 ∧
      getA (handleClose (TeardownOracle.mk 3 100 false) [("c", 5)]
        (ChannelRegistry.mk [("c", 9)]
          [("c", [Client.mk 0 wsOPEN Provider.browser])]
          [(Client.mk 0 wsOPEN Provider.browser, "c")])
        (Client.mk 0 wsOPEN Provider.browser)).1.channelConversations "c" = none ∧
      getA (handleClose (TeardownOracle.mk 3 100 false) [("c", 5)]
        (ChannelRegistry.mk [("c", 9)]
          [("c", [Client.mk 0 wsOPEN Provider.browser])]
          [(Client.mk 0 wsOPEN Provider.browser, "c")])
        (Client.mk 0 wsOPEN Provider.browser)).1.channelClients "c" = none ∧
      (3 ≤ (TeardownOracle.mk 3 100 false).stepsCompleted ∧
          (TeardownOracle.mk 3 100 false).durationMs < gracefulTimeoutMs →
        (handleClose (TeardownOracle.mk 3 100 false) [("c", 5)]
          (ChannelRegistry.mk [("c", 9)]
            [("c", [Client.mk 0 wsOPEN Provider.browser])]
            [(Client.mk 0 wsOPEN Provider.browser, "c")])
          (Client.mk 0 wsOPEN Provider.browser)).2.gracefulSteps = gracefulStepNames ∧
          (handleClose (TeardownOracle.mk 3 100 false) [("c", 5)]
            (ChannelRegistry.mk [("c", 9)]
              [("c", [Client.mk 0 wsOPEN Provider.browser])]
              [(Client.mk 0 wsOPEN Provider.browser, "c")])
            (Client.mk 0 wsOPEN Provider.browser)).2.forcedCloseAttempted = false) ∧
      (¬ (3 ≤ (TeardownOracle.mk 3 100 false).stepsCompleted ∧
          (TeardownOracle.mk 3 100 false).durationMs < gracefulTimeoutMs) →
        (handleClose (TeardownOracle.mk 3 100 false) [("c", 5)]
          (ChannelRegistry.mk [("c", 9)]
            [("c", [Client.mk 0 wsOPEN Provider.browser])]
            [(Client.mk 0 wsOPEN Provider.browser, "c")])
          (Client.mk 0 wsOPEN Provider.browser)).2.forcedCloseAttempted = true)) :=
  ⟨⟨by decide, by decide, by decide, by decide⟩,
    handleClose_last_client_teardown (TeardownOracle.mk 3 100 false) [("c", 5)]
      (ChannelRegistry.mk [("c", 9)]
        [("c", [Client.mk 0 wsOPEN Provider.browser])]
        [(Client.mk 0 wsOPEN Provider.browser, "c")])
      (Client.mk 0 wsOPEN Provider.browser) "c" 9 5
      (by decide) (by decide) (by decide) (by decide)⟩

/-- Key step for C9: after a `handleClose`, the closing socket is no longer
in `clientChannels`. -/
theorem handleClose_removes_clientChannel
    (o : TeardownOracle) (acts : List (String × Nat)) (reg : ChannelRegistry)
    (ws : Client) :
    getA (handleClose o acts reg ws).1.clientChannels ws = none ∨
      (handleClose o acts reg ws).1 = reg ∧ getA reg.clientChannels ws = none := by
  unfold handleClose
  split
  next hcc => exact Or.inr ⟨rfl, hcc⟩
  next cid hcc =>
    split
    next hck => exact Or.inl (getA_delA _ _)
    next clients hck =>
      refine Or.inl ?_
      repeat' split
      all_goals exact getA_delA _ _

/-- C9: `handleClose` is idempotent — invoking it for a socket with no
recorded channel is a no-op returning the state unchanged with no effects,
and invoking it a second time for the same socket (with any oracle and any
engine session table) leaves the post-state unchanged and produces no
further effects: no second teardown, no second registry removal. -/
theorem handleClose_idempotent
    (o o2 : TeardownOracle) (acts acts2 : List (String × Nat)) (reg : ChannelRegistry)
    (ws : Client) :
    (getA reg.clientChannels ws = none → handleClose o acts reg ws = (reg, noCloseEffects)) ∧
      handleClose o2 acts2 (handleClose o acts reg ws).1 ws =
        ((handleClose o acts reg ws).1, noCloseEffects) := by
  constructor
  · intro h
    unfold handleClose
    rw [h]
  · rcases handleClose_removes_clientChannel o acts reg ws with key | ⟨hfix, hnone⟩
    · generalize hgen : (handleClose o acts reg ws).1 = reg1 at key ⊢
      unfold handleClose
      rw [key]
    · rw [hfix]
      unfold handleClose
      rw [hnone]

/-- Witness for C9: a no-channel socket close is a no-op, and a real close
followed by a second close of the same socket produces no further effects. -/
theorem handleClose_idempotent_witness :
    getA (ChannelRegistry.mk [] [] []).clientChannels
        (Client.mk 0 wsOPEN Provider.browser) = none ∧
      handleClose (TeardownOracle.mk 3 100 false) [] (ChannelRegistry.mk [] [] [])
          (Client.mk 0 wsOPEN Provider.browser) =
        (ChannelRegistry.mk [] [] [], noCloseEffects) ∧
      handleClose (TeardownOracle.mk 3 100 false) []
          (handleClose (TeardownOracle.mk 3 100 false) [("c", 5)]
            (ChannelRegistry.mk [("c", 9)]
              [("c", [Client.mk 0 wsOPEN Provider.browser])]
              [(Client.mk 0 wsOPEN Provider.browser, "c")])
            (Client.mk 0 wsOPEN Provider.browser)).1
          (Client.mk 0 wsOPEN Provider.browser) =
        ((handleClose (TeardownOracle.mk 3 100 false) [("c", 5)]
            (ChannelRegistry.mk [("c", 9)]
              [("c", [Client.mk 0 wsOPEN Provider.browser])]
              [(Client.mk 0 wsOPEN Provider.browser, "c")])
            (Client.mk 0 wsOPEN Provider.browser)).1,
          noCloseEffects) :=
  ⟨by decide,
    (handleClose_idempotent (TeardownOracle.mk 3 100 false) (TeardownOracle.mk 3 100 false)
      [] [] (ChannelRegistry.mk [] [] []) (Client.mk 0 wsOPEN Provider.browser)).1 (by decide),
    (handleClose_idempotent (TeardownOracle.mk 3 100 false) (TeardownOracle.mk 3 100 false)
      [("c", 5)] [] (ChannelRegistry.mk [("c", 9)]
        [("c", [Client.mk 0 wsOPEN Provider.browser])]
        [(Client.mk 0 wsOPEN Provider.browser, "c")])
      (Client.mk 0 wsOPEN Provider.browser)).2⟩

/-- No branch of the browser inbound path throws, closes the connection, or
logs anything. -/
theorem browser_inbound_fields (isOn : Bool) (msg : RawMsg) :
    (browserTryProcessAudioInput isOn msg).threw = false ∧
      (browserTryProcessAudioInput isOn msg).closedConnection = false ∧
      (browserTryProcessAudioInput isOn msg).logs = [] := by
  unfold browserTryProcessAudioInput
  repeat' split
  all_goals simp [noInboundAction]

/-- No branch of the Genesys inbound path throws or closes the connection. -/
theorem genesys_inbound_fields (isOn : Bool) (msg : RawMsg) :
    (genesysTryProcessAudioInput isOn msg).threw = false ∧
      (genesysTryProcessAudioInput isOn msg).closedConnection = false := by
  unfold genesysTryProcessAudioInput
  repeat' split
  all_goals simp [noInboundAction]

/-- The Genesys inbound path logs every message that fails to parse. -/
theorem genesys_inbound_logs_malformed (msg : RawMsg) (h : parseJson msg = none) :
    (genesysTryProcessAudioInput true msg).logs =
      ["Error processing Genesys audio data:"] := by
  unfold genesysTryProcessAudioInput
  rw [if_pos rfl, h]

/-- No branch of the NovaSonic control dispatch throws, closes the
connection, or logs anything. -/
theorem novaSonic_inbound_fields (msg : RawMsg) :
    (tryProcessNovaSonicMessage msg).threw = false ∧
      (tryProcessNovaSonicMessage msg).closedConnection = false ∧
      (tryProcessNovaSonicMessage msg).logs = [] := by
  unfold tryProcessNovaSonicMessage
  repeat' split
  all_goals simp [noInboundAction]

/-- No branch of the Twilio inbound path closes the connection. -/
theorem twilio_inbound_closes_nothing (isOn : Bool) (msg : RawMsg) :
    (twilioTryProcessAudioInput isOn msg).closedConnection = false := by
  unfold twilioTryProcessAudioInput
  repeat' split
  all_goals simp [noInboundAction]

/-- The Twilio inbound path throws past the adapter exactly on enabled,
unparseable input: its `JSON.parse` runs outside the `try`. -/
theorem twilio_inbound_threw_iff (isOn : Bool) (msg : RawMsg) :
    (twilioTryProcessAudioInput isOn msg).threw = true ↔
      isOn = true ∧ parseJson msg = none := by
  cases isOn
  · simp [twilioTryProcessAudioInput, noInboundAction]
  · cases msg
    · simp [twilioTryProcessAudioInput, parseJson, noInboundAction]
    · simp only [twilioTryProcessAudioInput, parseJson, if_true]
      constructor
      · intro h
        exfalso
        revert h
        repeat' split
        all_goals simp [noInboundAction]
      · rintro ⟨-, h⟩
        cases h

/-- C8 counterexample: an unparseable inbound message fed to the (enabled)
browser adapter is tolerated — nothing is thrown, the connection stays
open — but, contrary to the claim, it is dropped with NO log entry (the
empty `catch (e) {}` swallows it silently); and the (enabled) Twilio
adapter does not even tolerate it — its `JSON.parse` runs outside the
`try` and the exception escapes past the adapter to its caller. -/
theorem malformed_input_not_logged_counterexample :
    parseJson (RawMsg.binary [0]) = none ∧
      (browserTryProcessAudioInput true (RawMsg.binary [0])).threw = false ∧
      (browserTryProcessAudioInput true (RawMsg.binary [0])).closedConnection = false ∧
      (browserTryProcessAudioInput true (RawMsg.binary [0])).streamedAudio = none ∧
      ¬ (browserTryProcessAudioInput true (RawMsg.binary [0])).logs ≠ [] ∧
      (twilioTryProcessAudioInput true (RawMsg.binary [0])).threw = true :=
  ⟨rfl, rfl, rfl, rfl, fun hne => hne rfl, rfl⟩

/-- C8 amended: for every raw inbound message, including unparseable ones,
the browser, Genesys, and Vonage adapters and the NovaSonic control parser
never throw past their caller; the Twilio adapter throws past its caller
exactly on enabled, unparseable input (its `JSON.parse` sits outside the
`try`), in which case `handleMessage`'s surrounding catch reports an error
event to the client; no adapter and no `handleMessage` path terminates the
client's connection; Genesys logs malformed input while the browser
adapter and the NovaSonic parser drop it silently. -/
theorem inbound_adapters_tolerate_malformed_input
    (msg : RawMsg) (browserOn genesysOn vonageOn twilioOn : Bool) :
    (browserTryProcessAudioInput browserOn msg).threw = false ∧
      (browserTryProcessAudioInput browserOn msg).closedConnection = false ∧
      (browserTryProcessAudioInput browserOn msg).logs = [] ∧
      (genesysTryProcessAudioInput genesysOn msg).threw = false ∧
      (genesysTryProcessAudioInput genesysOn msg).closedConnection = false ∧
      (vonageProcessAudioData vonageOn msg).threw = false ∧
      (vonageProcessAudioData vonageOn msg).closedConnection = false ∧
      (tryProcessNovaSonicMessage msg).threw = false ∧
      (tryProcessNovaSonicMessage msg).closedConnection = false ∧
      (twilioTryProcessAudioInput twilioOn msg).closedConnection = false ∧
      ((twilioTryProcessAudioInput twilioOn msg).threw = true ↔
        twilioOn = true ∧ parseJson msg = none) ∧
      (parseJson msg = none → (genesysTryProcessAudioInput true msg).logs ≠ []) ∧
      (handleMessageDisposition twilioOn msg).closedConnection = false ∧
      (handleMessageDisposition twilioOn msg).errorEventSent =
        (twilioTryProcessAudioInput twilioOn msg).threw := by
  refine ⟨(browser_inbound_fields _ _).1, (browser_inbound_fields _ _).2.1,
    (browser_inbound_fields _ _).2.2, (genesys_inbound_fields _ _).1,
    (genesys_inbound_fields _ _).2, ?_, ?_, (novaSonic_inbound_fields _).1,
    (novaSonic_inbound_fields _).2.1, twilio_inbound_closes_nothing _ _,
    twilio_inbound_threw_iff _ _, ?_, rfl, rfl⟩
  · unfold vonageProcessAudioData
    split <;> rfl
  · unfold vonageProcessAudioData
    split <;> rfl
  · intro h
    rw [genesys_inbound_logs_malformed msg h]
    simp

/-- Witness for the amended C8 at a concrete unparseable message with all
adapters enabled. -/
theorem inbound_adapters_tolerate_malformed_input_witness :
    parseJson (RawMsg.binary [7]) = none ∧
      (browserTryProcessAudioInput true (RawMsg.binary [7])).threw = false ∧
      (genesysTryProcessAudioInput true (RawMsg.binary [7])).logs ≠ [] ∧
      (twilioTryProcessAudioInput true (RawMsg.binary [7])).threw = true ∧
      (handleMessageDisposition true (RawMsg.binary [7])).closedConnection = false := by
  have h := inbound_adapters_tolerate_malformed_input (RawMsg.binary [7]) true true true true
  obtain ⟨h1, -, -, -, -, -, -, -, -, -, hiff, hlog, hclosed, -⟩ := h
  exact ⟨rfl, h1, hlog rfl, hiff.mpr ⟨rfl, rfl⟩, hclosed⟩

end SonicGateway
